import Mathlib

/-!
Shallow embedding of the core of the ramses_rf gateway library
(frame codec, send FSM, send queue, zone promotion, derived aggregates),
together with theorems settling the specification claims.

The Python source files embedded here are:
  - ramses_rf/packet.py            (Packet, is_valid, _has_array, __eq__)
  - ramses_rf/protocol/protocol_fsm.py  (ProtocolContext, states, send queue)
  - ramses_rf/zones.py             (set_zone_type, _handle_msg eavesdrop, _transform)
Parts of the repository that are referenced but absent from the source tree
(address.py, ramses.py opcode tables, exceptions.py hierarchy, const.py tables)
are modelled from the specification and are marked as such in doc comments.
-/

/-- Decidable equality of Except values, used to evaluate the embedded
fallible operations on concrete inputs. -/
instance {ε α : Type} [DecidableEq ε] [DecidableEq α] : DecidableEq (Except ε α) := fun a b =>
  match a, b with
  | Except.ok x, Except.ok y =>
      match decEq x y with
      | isTrue h => isTrue (congrArg Except.ok h)
      | isFalse h => isFalse (fun hh => h (Except.ok.inj hh))
  | Except.error x, Except.error y =>
      match decEq x y with
      | isTrue h => isTrue (congrArg Except.error h)
      | isFalse h => isFalse (fun hh => h (Except.error.inj hh))
  | Except.ok _, Except.error _ => isFalse (fun hh => Except.noConfusion hh)
  | Except.error _, Except.ok _ => isFalse (fun hh => Except.noConfusion hh)

namespace RamsesRF

/-- Verb literal for announce frames (const.py I_). -/
def I_ : String := " I"

/-- Verb literal for request frames (const.py RQ). -/
def RQ : String := "RQ"

/-- Verb literal for reply frames (const.py RP). -/
def RP : String := "RP"

/-- Verb literal for write frames (const.py W_). -/
def W_ : String := " W"

/-- Code._PUZZ, the reserved pseudo-opcode literal (spec section 3: the literal
7FFF is reserved for an internally generated puzzle packet). -/
def Code_PUZZ : String := "7FFF"

/-- A RAMSES address: a two-character device-type code and the full nine
character id string (address.py Address; only the fields the embedded code
reads). -/
structure Address where
  type : String
  id : String
deriving DecidableEq

/-- The null address sentinel (address.py NON_DEV_ADDR). -/
def NON_DEV_ADDR : Address := ⟨"--", "--:------"⟩

/-- A received packet (packet.py Packet): the capture timestamp, the frame
text, and the capture metadata. Validation is modelled separately in
packet_init below. -/
structure Packet where
  dtm : String
  packet : String
  comment : String
  errorText : String
  rawFrame : String
deriving DecidableEq

/-- packet.py Packet.__eq__: equality compares only the frame text. -/
def Packet.eq (p other : Packet) : Bool :=
  p.packet == other.packet

/-- The exception values raised by the embedded code. The protocol family
mirrors protocol_fsm.py (which defines the private underscore subclasses of
ProtocolSendFailed); the base-class relations used by isProtocolError are
modelled from the spec: exceptions.py is not in the source tree, and spec
section 7 lists ProtocolFsmError and the ProtocolSendFailed taxonomy as the
protocol error kinds. -/
inductive PyExc where
  | timeoutError
  | valueError (msg : String)
  | typeError (msg : String)
  | corruptAddrSetError (msg : String)
  | corruptStateError (msg : String)
  | assertionError (msg : String)
  | protocolFsmError (msg : String)
  | protocolSendFailed (msg : String)
  | protocolWaitFailed (msg : String)
  | protocolEchoFailed (msg : String)
  | protocolRplyFailed (msg : String)
deriving DecidableEq

/-- isinstance(e, ProtocolSendFailed): the three wait/echo/rply classes are
subclasses of ProtocolSendFailed (protocol_fsm.py lines 67-76). -/
def PyExc.isProtocolSendFailed : PyExc → Bool
  | .protocolSendFailed _ => true
  | .protocolWaitFailed _ => true
  | .protocolEchoFailed _ => true
  | .protocolRplyFailed _ => true
  | _ => false

/-- isinstance(e, _ProtocolWaitFailed): true only for the wait-failed class
itself. -/
def PyExc.isProtocolWaitFailed : PyExc → Bool
  | .protocolWaitFailed _ => true
  | _ => false

/-- Modelled from the spec: isinstance(e, ProtocolError). exceptions.py is
not in the source tree; spec section 7 lists ProtocolFsmError,
ProtocolSendFailed and the wait/echo/rply taxonomy as the protocol error
kinds that propagate to callers via futures. -/
def PyExc.isProtocolError : PyExc → Bool
  | .protocolFsmError _ => true
  | e => e.isProtocolSendFailed

/-- A command prepared for transmission (command.py Command; only the fields
the embedded protocol_fsm.py code reads). tx_header equals the command hdr
(spec section 3: a Command carries tx_header, which is its own hdr). -/
structure Command where
  verb : String
  code : String
  payload : String
  addrs : List Address
  hdr : String
  rxHeader : Option String
deriving DecidableEq

/-- Command.tx_header (spec section 3: equals the command hdr). -/
def Command.txHeader (c : Command) : String := c.hdr

/-- The states of the send FSM (protocol_fsm.py ProtocolStateBase and its
subclasses). WantEcho and WantRply carry the active command and the send
counter, as set by ProtocolContext.set_state. -/
inductive ProtocolState where
  | inactive
  | isPaused
  | isInIdle
  | wantEcho (cmd : Command) (cmdSends : Nat)
  | wantRply (cmd : Command) (cmdSends : Nat)
  | isFailed
deriving DecidableEq

/-- protocol_fsm.py ProtocolStateBase.is_active_cmd, lines 435-443: returns
True when cmd.verb equals Code._PUZZ, else compares the header, addresses
and payload of cmd with those of the state's active command (None, hence
false, when the state holds no command). -/
def is_active_cmd (stateCmd : Option Command) (cmd : Command) : Bool :=
  if cmd.verb == Code_PUZZ then
    true
  else
    match stateCmd with
    | none => false
    | some c => cmd.hdr == c.hdr && cmd.addrs == c.addrs && cmd.payload == c.payload

/-- The sent_cmd event of each state (protocol_fsm.py): IsInIdle.sent_cmd
moves to WantEcho with cmd_sends 1; WantEcho.sent_cmd and WantRply.sent_cmd
(lines 531-544 and 566-579) accept a re-issue of the active command while
cmd_sends does not exceed max_retries, incrementing cmd_sends and staying in
the same state, and raise ProtocolSendFailed once cmd_sends exceeds
max_retries; every other state raises ProtocolFsmError. -/
def sent_cmd : ProtocolState → Command → Nat → Except PyExc ProtocolState
  | .isInIdle, cmd, _ => .ok (.wantEcho cmd 1)
  | .wantEcho c n, cmd, maxRetries =>
      if !(is_active_cmd (some c) cmd) then
        .error (.protocolFsmError "not active Command")
      else if maxRetries < n then
        .error (.protocolSendFailed "Exceeded retry limit")
      else
        .ok (.wantEcho c (n + 1))
  | .wantRply c n, cmd, maxRetries =>
      if !(is_active_cmd (some c) cmd) then
        .error (.protocolFsmError "not active Command")
      else if maxRetries < n then
        .error (.protocolSendFailed "Exceeded retry limit")
      else
        .ok (.wantRply c (n + 1))
  | .inactive, _, _ => .error (.protocolFsmError "no Transport connected")
  | .isPaused, _, _ => .error (.protocolFsmError "Protocol is paused")
  | .isFailed, _, _ => .error (.protocolFsmError "in a failed state")

/-- The bound of the send queue (protocol_fsm.py ProtocolContext,
MAX_BUFFER_SIZE, line 82). -/
def MAX_BUFFER_SIZE : Nat := 10

/-- protocol_fsm.py DEFAULT_MAX_RETRIES (line 62). -/
def DEFAULT_MAX_RETRIES : Nat := 3

/-- One entry of the send queue: (priority, dt_submitted, cmd, dt_expires,
send coroutine, future); here reduced to the data the submission step reads,
with futDone the done() state of the entry's future. -/
structure QueueEntry where
  priority : Int
  dtSent : Nat
  dtExpires : Nat
  futDone : Bool
deriving DecidableEq

/-- The result of one send_cmd submission: the queue afterwards, and the
exception set on the new future at submission time, if any. -/
structure SubmitResult where
  queue : List QueueEntry
  futExc : Option PyExc
deriving DecidableEq

/-- protocol_fsm.py remove_entries (lines 191-197), called by send_cmd on
every submission before put_nowait: its first statement is
`with queue.mutex.acquire():`, which evaluates Lock.acquire() to the bool
True and enters it as a context manager, raising TypeError (AttributeError
on older interpreters) before any entry is inspected; the intended filtering
of done entries below that line never runs. -/
def remove_entries (_que : List QueueEntry) : Except PyExc (List QueueEntry) :=
  .error (.typeError "bool object does not support the context manager protocol")

/-- protocol_fsm.py ProtocolContext.send_cmd, lines 206-221, as executed:
remove_entries runs first and raises on every call, so its TypeError
propagates to the caller; the logic below it, kept here as written (drop
done entries, then put_nowait the new entry, failing the new future with
ProtocolFsmError("Send queue full, cmd discarded") when MAX_BUFFER_SIZE
entries are already queued), is unreachable. -/
def send_cmd_submit (que : List QueueEntry) (entry : QueueEntry) :
    Except PyExc SubmitResult :=
  match remove_entries que with
  | .error e => .error e
  | .ok pending =>
    if MAX_BUFFER_SIZE ≤ pending.length then
      .ok { queue := pending,
            futExc := some (.protocolFsmError "Send queue full, cmd discarded") }
    else
      .ok { queue := pending ++ [entry], futExc := none }

/-- The state of the outer future of a send_cmd call when awaited: resolved
with a packet, failed with an exception, or still unresolved when the outer
timeout fires (asyncio.wait_for then raises TimeoutError). -/
inductive FutOutcome where
  | ok (pkt : Packet)
  | exc (e : PyExc)
  | timedOut
deriving DecidableEq

/-- protocol_fsm.py ProtocolContext.send_cmd, lines 224-231: the outer await
returns the future's packet on success; a TimeoutError from wait_for, or any
ProtocolError carried by the future, is caught and re-raised as a plain
ProtocolSendFailed built from the command header; any other exception
propagates unchanged. (The _LOGGER.eror typo on the caught path is modelled
as the intended logging no-op.) -/
def send_cmd_await (hdr : String) : FutOutcome → Except PyExc Packet
  | .ok p => .ok p
  | .timedOut => .error (.protocolSendFailed hdr)
  | .exc e => if e.isProtocolError then .error (.protocolSendFailed hdr) else .error e

/-- protocol_fsm.py ProtocolContext._send_next_in_queue, line 261: a queued
entry whose deadline has passed before it is dispatched has its future
failed with the internal _ProtocolWaitFailed. -/
def expired_entry_exc : PyExc := .protocolWaitFailed "Timeout (inner) has expired"

/-- protocol_fsm.py ProtocolContext._send_cmd, lines 288-337, the
send-with-retries coroutine whose value resolves the outer future. The
waiting itself is abstracted by whether the echo (and then the reply) packet
is observed within its window: after the echo is captured, the echo packet is
returned when the command has no rx_header, or when wait_for_reply is False,
or when wait_for_reply is None and the verb is not RQ, or when the code is
1FC9; otherwise the reply packet is awaited and returned. A missing echo is
_ProtocolEchoFailed, a missing reply _ProtocolRplyFailed. -/
def protocol_send_cmd (cmd : Command) (waitForReply : Option Bool)
    (echoPkt : Option Packet) (rplyPkt : Option Packet) : Except PyExc Packet :=
  match echoPkt with
  | none => .error (.protocolEchoFailed "Failed to receive echo packet")
  | some echo =>
    if cmd.rxHeader.isNone then
      .ok echo
    else if waitForReply == some false
        || (waitForReply == none && cmd.verb != RQ)
        || cmd.code == "1FC9" then
      .ok echo
    else
      match rplyPkt with
      | none => .error (.protocolRplyFailed "Failed to receive rply packet")
      | some rply => .ok rply

/-- Modelled from the spec: ZONE_TYPE_SLUGS (protocol/const.py, not in the
source tree) maps the long zone-type names of spec section 3 (Radiator,
UnderfloorHeating, MixingValve, ZoneValve, Electric) to their slugs; a slug
passed directly falls through unchanged via dict.get(x, x). -/
def ZONE_TYPE_SLUGS : List (String × String) :=
  [("Radiator", "RAD"), ("UnderfloorHeating", "UFH"), ("MixingValve", "MIX"),
   ("ZoneValve", "VAL"), ("Electric", "ELE")]

/-- The keys of _CLASS_BY_KLASS (zones.py line 1126): the classes carrying a
_ZON_KLASS attribute, namely DhwZone, EleZone, MixZone, RadZone, UfhZone and
ValZone. -/
def zone_klass_valid : List String := ["DHW", "ELE", "MIX", "RAD", "UFH", "VAL"]

/-- zones.py set_zone_type, lines 642-670: resolve the argument through
ZONE_TYPE_SLUGS, reject unknown types with ValueError, return unchanged when
the type is already set to the same value, raise CorruptStateError when the
current type is set and the pair fails the guard
(current type different from ELE and new type different from VAL), and
otherwise record the new type. -/
def set_zone_type (cur : Option String) (zoneType : String) : Except PyExc (Option String) :=
  let t := ((ZONE_TYPE_SLUGS.lookup zoneType).getD zoneType)
  if !(zone_klass_valid.contains t) then
    .error (.valueError ("Not a known zone_type: " ++ zoneType))
  else if cur == some t then
    .ok cur
  else if cur.isSome && (cur != some "ELE" && t != "VAL") then
    .error (.corruptStateError "changed zone_type")
  else
    .ok (some t)

/-- The device classes that matter to zone-type eavesdropping
(devices.py classes named in zones.py lines 770-775). -/
inductive DeviceClass where
  | trvActuator
  | bdrSwitch
  | ufhController
  | controller
  | otherDevice
deriving DecidableEq

/-- Modelled from the spec: the device-type code of each class, per the
closed device-type registry of section 6 (01 CTL, 02 UFC, 04 TRV, 13 BDR);
devices.py is not in the source tree. -/
def DeviceClass.devType : DeviceClass → String
  | .trvActuator => "04"
  | .bdrSwitch => "13"
  | .ufhController => "02"
  | .controller => "01"
  | .otherDevice => "--"

/-- zones.py eavesdrop_zone_type for a 3150 message, lines 766-775: assert
the current type is unknown, RAD, UFH or VAL, then promote according to the
class of the message source (TRV to RAD, relay to VAL, UFH controller to
UFH); other sources leave the type unchanged. -/
def zone_eavesdrop_3150 (cur : Option String) (srcClass : DeviceClass) :
    Except PyExc (Option String) :=
  if !(cur == none || cur == some "RAD" || cur == some "UFH" || cur == some "VAL") then
    .error (.assertionError "zone_type")
  else
    match srcClass with
    | .trvActuator => set_zone_type cur "RAD"
    | .bdrSwitch => set_zone_type cur "VAL"
    | .ufhController => set_zone_type cur "UFH"
    | _ => .ok cur

/-- zones.py Zone._handle_msg for a 3150 message: the routing asserts at
lines 777-784 require msg.src to be the zone's controller or a type 02
device and raise AssertionError otherwise (their payload zone_idx conjunct
is taken as satisfied, the message having been routed to this zone); only
after them does line 817 gate eavesdropping to zones whose type is still
unknown or ELE, running eavesdrop_zone_type. srcIsCtl is the identity test
msg.src is self._ctl. -/
def zone_handle_msg_3150 (eavesdropEnabled : Bool) (cur : Option String)
    (srcIsCtl : Bool) (srcClass : DeviceClass) : Except PyExc (Option String) :=
  if !(srcIsCtl || srcClass.devType == "02") then
    .error (.assertionError "msg inappropriately routed")
  else if eavesdropEnabled && (cur == none || cur == some "ELE") then
    zone_eavesdrop_3150 cur srcClass
  else
    .ok cur

/-- zones.py _transform, lines 1116-1123: transform a valve position (a
fraction, scaled by 100 below) into a demand percentage, exactly as in the
source: zero at or below 30, else the piecewise-linear map through
(t0, t1, t2), rounded to two decimals via floor(x + 1/2). -/
def _transform (valve_pos : ℚ) : ℚ :=
  let v := valve_pos * 100
  if v ≤ 30 then 0
  else
    let t := if v ≤ 70 then ((0 : ℚ), (30 : ℚ), (70 : ℚ)) else ((30 : ℚ), 70, 100)
    ((Int.floor ((v - t.2.1) * t.2.1 / (t.2.2 - t.2.1) + t.1 + 1 / 2) : ℤ) : ℚ) / 100

/-- zones.py Zone.heat_demand, lines 879-887: the transform applied to
max(demands + [0]) over the child devices that report a heat demand, and
None when no device reports one. Python max over the list demands + [0]
is the fold of max over the demands starting from 0. -/
def zone_heat_demand (demands : List ℚ) : Option ℚ :=
  if demands.isEmpty then none
  else some (_transform (demands.foldl max 0))

/-- A parsed frame, as read by packet.py PacketBase._has_array: verb, code,
declared payload length in bytes, payload hex text, and the resolved source
and destination addresses. -/
structure Frame where
  verb : String
  code : String
  len : Nat
  payload : String
  src : Address
  dst : Address
deriving DecidableEq

/-- packet.py PacketBase._has_array, lines 120-172, parameterised by the
CODES_WITH_ARRAYS unit-length table (ramses.py, not in the source tree; the
claims quantify over its entries). For 1FC9 the result is verb different
from RQ; a non-announce verb or a code outside the table gives false; a
payload of exactly one unit gives false (accepted false negative); otherwise
the three source assertions run (length a multiple of the unit; source a
12/22 type or equal to the destination; a 12/22 source only with the null
destination) and the result is true. -/
def pkt_has_array (arrays : String → Option Nat) (f : Frame) : Except PyExc Bool :=
  if f.code == "1FC9" then
    .ok (f.verb != RQ)
  else
    match arrays f.code with
    | none => .ok false
    | some unitLen =>
      if f.verb != I_ then
        .ok false
      else if f.len == unitLen then
        .ok false
      else if f.len % unitLen != 0 then
        .error (.assertionError "array has length that is not multiple of unit")
      else if !(f.src.type == "12" || f.src.type == "22" || f.src == f.dst) then
        .error (.assertionError "array is from a non-controller (01)")
      else if (f.src.type == "12" || f.src.type == "22") && f.dst != NON_DEV_ADDR then
        .error (.assertionError "array is from a non-controller (02)")
      else
        .ok true

/-- Modelled from the spec: parsing of one nine-character address id
(address.py is not in the source tree; spec sections 3 and 4.1: an id is
TT colon NNNNNN with TT a two-digit device type and NNNNNN a decimal tag,
and the null address is the sentinel). -/
def parse_address (s : String) : Except PyExc Address :=
  if s == NON_DEV_ADDR.id then
    .ok NON_DEV_ADDR
  else
    let cs := s.toList
    if cs.length == 9 && (cs.take 2).all Char.isDigit && ((cs.drop 2).take 1 == [':'])
        && (cs.drop 3).all Char.isDigit then
      .ok ⟨String.mk (cs.take 2), s⟩
    else
      .error (.corruptAddrSetError s)

/-- Modelled from the spec: pkt_addrs (address.py, not in the source tree),
following the table of spec section 4.1. The 29-character field holds three
ids separated by single spaces; each id is parsed and the (src, dst) pair is
chosen by the first matching row of the null-pattern table; the two patterns
outside the table fail with CorruptAddrSetError. -/
def pkt_addrs (s : String) : Except PyExc (Address × Address × List Address) := do
  let cs := s.toList
  if !(cs.length == 29 && ((cs.drop 9).take 1 == [' ']) && ((cs.drop 19).take 1 == [' '])) then
    Except.error (.corruptAddrSetError s)
  else
    let a0 ← parse_address (String.mk (cs.take 9))
    let a1 ← parse_address (String.mk ((cs.drop 10).take 9))
    let a2 ← parse_address (String.mk (cs.drop 20))
    let n := NON_DEV_ADDR
    if a0 ≠ n ∧ a1 = n ∧ a2 ≠ n then Except.ok (a0, a2, [a0, a1, a2])
    else if a0 ≠ n ∧ a1 ≠ n ∧ a2 = n then Except.ok (a0, a1, [a0, a1, a2])
    else if a0 = n ∧ a1 ≠ n ∧ a2 ≠ n then Except.ok (a1, a2, [a0, a1, a2])
    else if a0 ≠ n ∧ a1 = n ∧ a2 = n then Except.ok (a0, n, [a0, a1, a2])
    else if a0 = n ∧ a1 = n ∧ a2 ≠ n then Except.ok (a2, n, [a0, a1, a2])
    else if a0 ≠ n ∧ a1 ≠ n ∧ a2 ≠ n then Except.ok (a0, a1, [a0, a1, a2])
    else Except.error (.corruptAddrSetError s)

/-- The payload field of a frame line: the characters from position 50
(packet.py line 320, self.packet[50:]). -/
def framePayload (frame : String) : String :=
  String.mk (frame.toList.drop 50)

/-- The address field of a frame line: the 29 characters from position 11
(packet.py line 433, self.packet[11:40]). -/
def frameAddrsField (frame : String) : String :=
  String.mk ((frame.toList.drop 11).take 29)

/-- Python int() over a field of decimal digits; none when the characters
are not all digits (int() would raise; the frame grammar guarantees digits
in every reachable use). -/
def digitsToNat? (cs : List Char) : Option Nat :=
  if cs ≠ [] ∧ cs.all Char.isDigit then
    some (cs.foldl (fun acc c => acc * 10 + (c.toNat - 48)) 0)
  else none

/-- The declared length field of a frame line: int(self.packet[46:49])
(packet.py line 431); none when the three characters are not a decimal
number, a case the frame grammar already excludes. -/
def frameLenField (frame : String) : Option Nat :=
  digitsToNat? ((frame.toList.drop 46).take 3)

/-- packet.py Packet.is_valid, lines 399-443, parameterised by the frame
grammar test (MESSAGE_REGEX lives in a const.py version that is not in the
source tree, so it stays abstract: the claims hold for every grammar): a
frame with error text, an empty frame, a grammar mismatch, a declared length
whose doubling differs from the payload character count, or an address field
rejected by pkt_addrs, is invalid; otherwise the frame is valid. -/
def packet_is_valid (grammar : String → Bool) (errorText : String) (frame : String) : Bool :=
  if errorText ≠ "" then false
  else if frame == "" then false
  else if !(grammar frame) then false
  else
    match frameLenField frame with
    | none => false
    | some l =>
      if l * 2 ≠ (framePayload frame).length then false
      else
        match pkt_addrs (frameAddrsField frame) with
        | .error _ => false
        | .ok _ => true

/-- packet.py Packet.__init__, lines 285-312: construction stores the frame
and metadata and raises ValueError when is_valid is false. -/
def packet_init (grammar : String → Bool) (dtm frame errorText : String) :
    Except PyExc Packet :=
  if packet_is_valid grammar errorText frame then
    .ok { dtm := dtm, packet := frame, comment := "", errorText := errorText, rawFrame := "" }
  else
    .error (.valueError ("not a valid packet: " ++ frame))

/-- packet.py _create_devices, lines 597-630, reduced to the entity effect
the claims speak about: the source and destination ids are entered into the
gateway's device-id map when not yet present. -/
def create_devices (known : List String) (src dst : Address) : List String :=
  let k1 := if known.contains src.id then known else known ++ [src.id]
  if k1.contains dst.id then k1 else k1 ++ [dst.id]

/-- The frame-ingestion pipeline of one line: Packet construction, then
packet.py process_pkt, lines 633-664 (entity creation only for a valid
packet whose source is not the gateway type 18). A line whose Packet
construction fails leaves the entity store untouched. -/
def handle_line (grammar : String → Bool) (known : List String) (dtm frame : String) :
    List String :=
  match packet_init grammar dtm frame "" with
  | .error _ => known
  | .ok _ =>
    match pkt_addrs (frameAddrsField frame) with
    | .error _ => known
    | .ok (src, dst, _) => if src.type ≠ "18" then create_devices known src dst else known

/-- The gateway address 18:000730 used in the concrete frames below. -/
def addr_18 : Address := ⟨"18", "18:000730"⟩

/-- A controller address used in the concrete frames below. -/
def addr_01 : Address := ⟨"01", "01:222222"⟩

/-- A puzzle command: opcode 7FFF, announce verb, no reply expected. -/
def puzzle_cmd : Command :=
  { verb := I_, code := Code_PUZZ, payload := "7F30",
    addrs := [addr_18, NON_DEV_ADDR, NON_DEV_ADDR],
    hdr := "7FFF| I|18:000730", rxHeader := none }

/-- An ordinary RQ command (the 12B0 request of the repository tests),
used as the active command of a WantEcho or WantRply state. -/
def active_cmd_12B0 : Command :=
  { verb := RQ, code := "12B0", payload := "00",
    addrs := [addr_18, addr_01, NON_DEV_ADDR],
    hdr := "12B0|RQ|01:222222|00", rxHeader := some "12B0|RP|01:222222|00" }

/-- The header of active_cmd_12B0, used as a concrete command header. -/
def example_hdr : String := "12B0|RQ|01:222222|00"

/-- A concrete 1F09 announce command with no reply expected (the II command
of the repository tests). -/
def ii_cmd_1F09 : Command :=
  { verb := I_, code := "1F09", payload := "0005C8",
    addrs := [⟨"01", "01:006056"⟩, NON_DEV_ADDR, ⟨"01", "01:006056"⟩],
    hdr := "1F09| I|01:006056|00", rxHeader := none }

/-- The echo packet of ii_cmd_1F09 as looped back by the adapter. -/
def echo_pkt_ii : Packet :=
  ⟨"2022-01-01T00:00:00.000000",
   "000  I --- 01:006056 --:------ 01:006056 1F09 003 0005C8", "", "", ""⟩

/-- A frame line whose declared length (002) doubled is not the number of
payload characters (two). -/
def bad_len_frame : String :=
  "045 RQ --- 18:000730 01:222222 --:------ 12B0 002 00"

/-- A one-entry unit-length table: 000A with six-byte elements (zone
configuration arrays), a concrete instance of CODES_WITH_ARRAYS. -/
def arrays_000A : String → Option Nat :=
  fun c => if c == "000A" then some 6 else none

/-- The controller 01:145038 of the frames quoted in packet.py. -/
def ctl_addr : Address := ⟨"01", "01:145038"⟩

/-- A controller-produced RP frame carrying two 000A array elements. -/
def frame_rp_array : Frame :=
  { verb := RP, code := "000A", len := 12, payload := "081001F40DAC091001F40DAC",
    src := ctl_addr, dst := addr_18 }

/-- A controller-produced announce frame carrying two 000A array elements
but addressed to another device instead of to itself. -/
def frame_i_misaddressed : Frame :=
  { verb := I_, code := "000A", len := 12, payload := "081001F40DAC091001F40DAC",
    src := ctl_addr, dst := ⟨"13", "13:111111"⟩ }

/-- The self-addressed controller announce frame carrying two 000A array
elements (the on-wire broadcast form). -/
def frame_ctl_broadcast : Frame :=
  { verb := I_, code := "000A", len := 12, payload := "081001F40DAC091001F40DAC",
    src := ctl_addr, dst := ctl_addr }

-- Theorems settling the claims follow.

/-- C10: equality of two Packet objects depends only on their frame text:
Packet equality is true exactly when the packet strings are equal, whatever
the capture timestamp, raw frame bytes, error text, or comment. -/
theorem packet_eq_frame_only (p q : Packet) :
    Packet.eq p q = true ↔ p.packet = q.packet := by
  simp [Packet.eq]

/-- C7 (code bug): a command whose opcode is the pseudo-opcode 7FFF is not
treated as always-active. is_active_cmd compares cmd.verb (always one of the
four verb literals) against Code._PUZZ, a dead test, and then falls through
to the ordinary equality check, which fails for the puzzle command against a
different active command; the ordinary path itself works. -/
theorem puzzle_cmd_not_treated_active :
    puzzle_cmd.code = Code_PUZZ ∧
    [" I", "RQ", "RP", " W"].contains puzzle_cmd.verb = true ∧
    is_active_cmd (some active_cmd_12B0) puzzle_cmd = false ∧
    is_active_cmd (some active_cmd_12B0) active_cmd_12B0 = true := by
  decide

/-- C6 (counterexample): a send_cmd call whose outer timeout expires before
IsInIdle is reached fails with a plain ProtocolSendFailed, not with the
internal _ProtocolWaitFailed; the _ProtocolWaitFailed set on a queued entry
whose deadline passed before dispatch is likewise re-raised as a plain
ProtocolSendFailed. -/
theorem outer_timeout_counterexample :
    send_cmd_await example_hdr .timedOut = .error (.protocolSendFailed example_hdr) ∧
    (PyExc.protocolSendFailed example_hdr).isProtocolWaitFailed = false ∧
    send_cmd_await example_hdr (.exc expired_entry_exc) =
      .error (.protocolSendFailed example_hdr) ∧
    expired_entry_exc.isProtocolWaitFailed = true := by
  decide

/-- C6 (amended): every invocation of send_cmd whose outer timeout expires
before the FSM reaches IsInIdle fails with ProtocolSendFailed; this covers
both the direct wait_for timeout and a queued entry whose deadline passed
before dispatch, whose future carries the internal _ProtocolWaitFailed that
send_cmd catches as a ProtocolError and re-raises as ProtocolSendFailed. -/
theorem outer_timeout_raises_send_failed (hdr : String) (o : FutOutcome)
    (h : o = .timedOut ∨ o = .exc expired_entry_exc) :
    send_cmd_await hdr o = .error (.protocolSendFailed hdr) := by
  rcases h with rfl | rfl <;>
    simp [send_cmd_await, expired_entry_exc, PyExc.isProtocolError,
      PyExc.isProtocolSendFailed]

/-- C6 (witness): the amended theorem at the concrete timed-out outcome. -/
theorem outer_timeout_raises_send_failed_witness :
    send_cmd_await example_hdr .timedOut = .error (.protocolSendFailed example_hdr) :=
  outer_timeout_raises_send_failed example_hdr .timedOut (Or.inl rfl)

/-- C5 (code bug): every send_cmd submission crashes inside remove_entries
before the queue is consulted: `with queue.mutex.acquire():` enters a bool
context manager and raises TypeError, so the queue-full ProtocolFsmError of
lines 216-218 is unreachable and the 11th submission (like the 1st) fails
with TypeError rather than a queue-full error, while the claim (and the
intent of the code below the crash) has the first ten submissions enqueued
and the 11th failing with queue-full. Shown at the empty queue, at a queue
of ten pending entries, and universally. -/
theorem send_queue_submit_crashes :
    MAX_BUFFER_SIZE = 10 ∧
    send_cmd_submit [] ⟨0, 1, 1, false⟩ =
      .error (.typeError "bool object does not support the context manager protocol") ∧
    send_cmd_submit (List.replicate 10 ⟨0, 0, 0, false⟩) ⟨0, 1, 1, false⟩ =
      .error (.typeError "bool object does not support the context manager protocol") ∧
    (∀ (que : List QueueEntry) (entry : QueueEntry),
      send_cmd_submit que entry =
        .error (.typeError "bool object does not support the context manager protocol")) :=
  ⟨rfl, rfl, rfl, fun _ _ => rfl⟩

/-- C4: with max_retries = 3, the initial dispatch from IsInIdle sets the
sends counter to 1; a re-issue of the active command in WantEcho or WantRply
is accepted, incrementing the counter and staying in the same state, exactly
while the sends counter is at most max_retries; the fourth re-issue attempt
(which observes a counter of four) fails with ProtocolSendFailed. -/
theorem retry_limit_behaviour (cmd : Command) :
    sent_cmd .isInIdle cmd DEFAULT_MAX_RETRIES = .ok (.wantEcho cmd 1) ∧
    (∀ n : Nat, n ≤ DEFAULT_MAX_RETRIES →
      sent_cmd (.wantEcho cmd n) cmd DEFAULT_MAX_RETRIES = .ok (.wantEcho cmd (n + 1)) ∧
      sent_cmd (.wantRply cmd n) cmd DEFAULT_MAX_RETRIES = .ok (.wantRply cmd (n + 1))) ∧
    (∀ n : Nat, DEFAULT_MAX_RETRIES < n →
      sent_cmd (.wantEcho cmd n) cmd DEFAULT_MAX_RETRIES =
        .error (.protocolSendFailed "Exceeded retry limit") ∧
      sent_cmd (.wantRply cmd n) cmd DEFAULT_MAX_RETRIES =
        .error (.protocolSendFailed "Exceeded retry limit")) ∧
    sent_cmd (.wantEcho cmd 4) cmd DEFAULT_MAX_RETRIES =
      .error (.protocolSendFailed "Exceeded retry limit") := by
  have hact : is_active_cmd (some cmd) cmd = true := by
    simp [is_active_cmd]
  refine ⟨by simp [sent_cmd], ?_, ?_, ?_⟩
  · intro n hn
    constructor <;> simp [sent_cmd, hact, Nat.not_lt.mpr hn]
  · intro n hn
    constructor <;> simp [sent_cmd, hact, hn]
  · simp [sent_cmd, hact, DEFAULT_MAX_RETRIES]

/-- C4 (witness): the theorem at the concrete 12B0 command, exhibiting the
initial send, three accepted re-issues, and the failing fourth re-issue. -/
theorem retry_limit_behaviour_witness :
    sent_cmd .isInIdle active_cmd_12B0 DEFAULT_MAX_RETRIES =
      .ok (.wantEcho active_cmd_12B0 1) ∧
    sent_cmd (.wantEcho active_cmd_12B0 1) active_cmd_12B0 DEFAULT_MAX_RETRIES =
      .ok (.wantEcho active_cmd_12B0 2) ∧
    sent_cmd (.wantEcho active_cmd_12B0 2) active_cmd_12B0 DEFAULT_MAX_RETRIES =
      .ok (.wantEcho active_cmd_12B0 3) ∧
    sent_cmd (.wantEcho active_cmd_12B0 3) active_cmd_12B0 DEFAULT_MAX_RETRIES =
      .ok (.wantEcho active_cmd_12B0 4) ∧
    sent_cmd (.wantEcho active_cmd_12B0 4) active_cmd_12B0 DEFAULT_MAX_RETRIES =
      .error (.protocolSendFailed "Exceeded retry limit") := by
  have h := retry_limit_behaviour active_cmd_12B0
  exact ⟨h.1, (h.2.1 1 (by decide)).1, (h.2.1 2 (by decide)).1,
    (h.2.1 3 (by decide)).1, (h.2.2.1 4 (by decide)).1⟩

/-- C1: a send that completes successfully returns the echo packet when the
command has no rx_header, or wait_for_reply is False, or wait_for_reply is
unset and the verb is not RQ, or the opcode is 1FC9; in every other
successful case it returns the reply packet; and the outer send_cmd passes
the resolved packet through unchanged. -/
theorem send_cmd_returns_echo_or_reply (cmd : Command) (wfr : Option Bool)
    (echoPkt rplyPkt : Option Packet) (pkt : Packet)
    (hok : protocol_send_cmd cmd wfr echoPkt rplyPkt = .ok pkt) :
    send_cmd_await cmd.hdr (.ok pkt) = .ok pkt ∧
    ((cmd.rxHeader = none ∨ wfr = some false ∨ (wfr = none ∧ cmd.verb ≠ RQ) ∨
        cmd.code = "1FC9") → echoPkt = some pkt) ∧
    ((cmd.rxHeader ≠ none ∧ wfr ≠ some false ∧ ¬(wfr = none ∧ cmd.verb ≠ RQ) ∧
        cmd.code ≠ "1FC9") → rplyPkt = some pkt) := by
  cases echoPkt with
  | none => simp [protocol_send_cmd] at hok
  | some e =>
    refine ⟨rfl, ?_, ?_⟩
    · intro hC
      have he : protocol_send_cmd cmd wfr (some e) rplyPkt = .ok e := by
        rcases hC with h | h | ⟨h1, h2⟩ | h
        · simp [protocol_send_cmd, h]
        · simp [protocol_send_cmd, h]
        · simp [protocol_send_cmd, h1, h2]
        · simp [protocol_send_cmd, h]
      rw [he] at hok
      exact congrArg some (Except.ok.inj hok)
    · rintro ⟨hrx, hwfr, hvb, hcode⟩
      simp only [protocol_send_cmd] at hok
      have h1 : ¬ (cmd.rxHeader.isNone = true) := by
        simpa [Option.isNone_iff_eq_none] using hrx
      have h2 : ¬ ((wfr == some false || (wfr == none && cmd.verb != RQ)
          || cmd.code == "1FC9") = true) := by
        simp only [Bool.or_eq_true, beq_iff_eq, Bool.and_eq_true, bne_iff_ne, not_or]
        exact ⟨⟨hwfr, hvb⟩, hcode⟩
      rw [if_neg h1, if_neg h2] at hok
      cases rplyPkt with
      | none => simp at hok
      | some r => exact congrArg some (Except.ok.inj hok)

/-- C1 (witness): the theorem at a concrete 1F09 announce command with no
rx_header, whose successful send resolves to its echo packet. -/
theorem send_cmd_returns_echo_or_reply_witness :
    protocol_send_cmd ii_cmd_1F09 none (some echo_pkt_ii) none = .ok echo_pkt_ii ∧
    (some echo_pkt_ii : Option Packet) = some echo_pkt_ii :=
  ⟨by decide,
   (send_cmd_returns_echo_or_reply ii_cmd_1F09 none (some echo_pkt_ii) none echo_pkt_ii
     (by decide)).2.1 (Or.inl rfl)⟩

/-- C2 (counterexample): the zone-type state machine also accepts RAD to
VAL: set_zone_type on a RAD zone with VAL succeeds and changes the type,
raising no CorruptState; and the claimed 3150 scenario does not occur at
all: a 3150 from a TrvActuator or from a BdrSwitch (neither the zone's
controller nor a type 02 device) raises the routing AssertionError of
Zone._handle_msg before any promotion or CorruptState, so a zone is never
promoted to RAD that way and a RAD zone receives no CorruptState. -/
theorem zone_type_claim_counterexample :
    set_zone_type (some "RAD") "VAL" = .ok (some "VAL") ∧
    zone_handle_msg_3150 true none false .trvActuator =
      .error (.assertionError "msg inappropriately routed") ∧
    zone_handle_msg_3150 true (some "RAD") false .bdrSwitch =
      .error (.assertionError "msg inappropriately routed") := by
  decide

/-- C2 (amended): for every valid zone-type slug, set_zone_type is the
identity on an already-identical type, accepts any promotion out of the
unknown state, out of ELE, or into VAL, and raises CorruptState on every
other change of an already-set type (leaving the stored type unchanged,
since the setter fails before assignment); and a 3150 from a TrvActuator or
a BdrSwitch never reaches the promotion logic: the routing asserts of
Zone._handle_msg raise AssertionError first, whatever the zone's type and
whether eavesdropping is enabled. -/
theorem zone_type_transitions (cur : Option String) (t : String)
    (hv : zone_klass_valid.contains t = true)
    (hs : ZONE_TYPE_SLUGS.lookup t = none) :
    set_zone_type cur t =
      (if cur = some t then .ok cur
       else if cur = none ∨ cur = some "ELE" ∨ t = "VAL" then .ok (some t)
       else .error (.corruptStateError "changed zone_type")) ∧
    (∀ (eav : Bool) (cur2 : Option String),
      zone_handle_msg_3150 eav cur2 false .trvActuator =
        .error (.assertionError "msg inappropriately routed") ∧
      zone_handle_msg_3150 eav cur2 false .bdrSwitch =
        .error (.assertionError "msg inappropriately routed")) := by
  constructor
  · rw [set_zone_type]
    simp only [hs, Option.getD_none, hv, Bool.not_true, Bool.false_eq_true, if_false]
    by_cases h1 : cur = some t
    · simp [h1]
    · rw [if_neg (by simpa using h1), if_neg h1]
      by_cases h2 : cur = none ∨ cur = some "ELE" ∨ t = "VAL"
      · rw [if_pos h2]
        rcases h2 with h | h | h
        · simp [h]
        · simp [h]
        · cases cur with
          | none => simp
          | some c =>
            have : (some c != some "ELE" && t != "VAL") = false := by
              simp [h]
            simp [this]
      · rw [if_neg h2]
        push_neg at h2
        obtain ⟨hn, he, hval⟩ := h2
        cases cur with
        | none => exact absurd rfl hn
        | some c =>
          have : (some c != some "ELE" && t != "VAL") = true := by
            simp [he, hval]
          simp [this]
  · intro eav cur2
    exact ⟨rfl, rfl⟩

/-- C2 (witness): the amended theorem at a RAD zone asked to become UFH
(CorruptState) and at the BdrSwitch 3150 on a RAD zone (routing
AssertionError). -/
theorem zone_type_transitions_witness :
    set_zone_type (some "RAD") "UFH" = .error (.corruptStateError "changed zone_type") ∧
    zone_handle_msg_3150 true (some "RAD") false .bdrSwitch =
      .error (.assertionError "msg inappropriately routed") := by
  have h := zone_type_transitions (some "RAD") "UFH" (by decide) (by decide)
  refine ⟨?_, (h.2 true (some "RAD")).2⟩
  rw [h.1]
  decide

/-- C3: a frame line whose declared length field doubled differs from its
payload character count, or whose three-address field the addressing rules
reject, fails Packet construction with ValueError and has no downstream
effect: the device store is left unchanged. This holds whatever the frame
grammar test accepts. -/
theorem invalid_frame_rejected (grammar : String → Bool) (known : List String)
    (dtm frame : String)
    (h : (∃ l, frameLenField frame = some l ∧ l * 2 ≠ (framePayload frame).length) ∨
         (∃ e, pkt_addrs (frameAddrsField frame) = .error e)) :
    packet_init grammar dtm frame "" =
      .error (.valueError ("not a valid packet: " ++ frame)) ∧
    handle_line grammar known dtm frame = known := by
  have hinv : packet_is_valid grammar "" frame = false := by
    rw [packet_is_valid]
    rw [if_neg (by simp)]
    by_cases hempty : frame == ""
    · simp [hempty]
    · rw [if_neg (by simpa using hempty)]
      by_cases hg : grammar frame
      · rw [if_neg (by simp [hg])]
        rcases h with ⟨l, hl, hne⟩ | ⟨e, he⟩
        · rw [hl]
          simp [hne]
        · cases hlen : frameLenField frame with
          | none => rfl
          | some l =>
            by_cases hmatch : l * 2 = (framePayload frame).length
            · simp [hmatch, he]
            · simp [hmatch]
      · rw [if_pos (by simp [hg])]
  constructor
  · rw [packet_init, if_neg (by simp [hinv])]
  · rw [handle_line, packet_init, if_neg (by simp [hinv])]

/-- C3 (witness): the theorem at a concrete line whose length field declares
two bytes but whose payload has only two characters. -/
theorem invalid_frame_rejected_witness :
    packet_init (fun _ => true) "2022-01-01T00:00:00.000000" bad_len_frame "" =
      .error (.valueError ("not a valid packet: " ++ bad_len_frame)) ∧
    handle_line (fun _ => true) [] "2022-01-01T00:00:00.000000" bad_len_frame = [] :=
  invalid_frame_rejected (fun _ => true) [] "2022-01-01T00:00:00.000000" bad_len_frame
    (Or.inl ⟨2, by decide, by decide⟩)

/-- C8 (counterexample): a controller-produced frame carrying an
array-capable opcode with a payload of two unit lengths does not always have
the array flag: an RP carrying two 000A elements yields false (the flag
requires the announce verb), and an I frame from a controller that is not
addressed to itself fails the source assertion instead of yielding true. -/
theorem has_array_claim_counterexample :
    arrays_000A "000A" = some 6 ∧
    frame_rp_array.len = 2 * 6 ∧
    pkt_has_array arrays_000A frame_rp_array = .ok false ∧
    frame_i_misaddressed.len = 2 * 6 ∧
    pkt_has_array arrays_000A frame_i_misaddressed =
      .error (.assertionError "array is from a non-controller (01)") := by
  decide

/-- C8 (amended): for every unit-length table entry, an announce frame with
a payload of k units (k at least two) from a controller addressed to itself
(the broadcast array form) has the array flag. -/
theorem has_array_controller_broadcast (arrays : String → Option Nat)
    (f : Frame) (unitLen k : Nat)
    (htab : arrays f.code = some unitLen) (hcode : f.code ≠ "1FC9")
    (hverb : f.verb = I_) (hlen : f.len = k * unitLen) (hk : 2 ≤ k) (hu : 0 < unitLen)
    (hself : f.src = f.dst)
    (hctl : f.src.type = "01" ∨ f.src.type = "02" ∨ f.src.type = "23") :
    pkt_has_array arrays f = .ok true := by
  have hne : f.len ≠ unitLen := by
    rw [hlen]
    have : unitLen < k * unitLen := by
      calc unitLen < 2 * unitLen := by omega
        _ ≤ k * unitLen := Nat.mul_le_mul_right unitLen hk
    omega
  have hmod : f.len % unitLen = 0 := by
    rw [hlen]
    exact Nat.mul_mod_left k unitLen
  have hnot12 : (f.src.type == "12" || f.src.type == "22") = false := by
    rcases hctl with h | h | h <;> rw [h] <;> rfl
  have hnot12d : (f.dst.type == "12" || f.dst.type == "22") = false := hself ▸ hnot12
  simp only [pkt_has_array, htab]
  simp [hcode, hverb, hne, hmod, hself, hnot12d]

/-- C8 (witness): the amended theorem at the concrete self-addressed
controller broadcast of two 000A elements. -/
theorem has_array_controller_broadcast_witness :
    pkt_has_array arrays_000A frame_ctl_broadcast = .ok true :=
  has_array_controller_broadcast arrays_000A frame_ctl_broadcast 6 2
    (by decide) (by decide) rfl (by decide) (by decide) (by decide) rfl (Or.inl rfl)

/-- Folding max over a list whose elements are bounded by the accumulator
leaves the accumulator unchanged. -/
theorem foldl_max_of_le (l : List ℚ) :
    ∀ a : ℚ, (∀ x ∈ l, x ≤ a) → l.foldl max a = a := by
  induction l with
  | nil => intro a _; rfl
  | cons x xs ih =>
    intro a h
    simp only [List.foldl_cons]
    rw [max_eq_left (h x (List.mem_cons_self x xs))]
    exact ih a (fun y hy => h y (List.mem_cons_of_mem x hy))

/-- Folding max from an accumulator below the greatest element of a list
yields that greatest element. -/
theorem foldl_max_eq_max (l : List ℚ) :
    ∀ a m : ℚ, m ∈ l → (∀ x ∈ l, x ≤ m) → a ≤ m → l.foldl max a = m := by
  induction l with
  | nil => intro a m hm _ _; exact absurd hm (List.not_mem_nil m)
  | cons x xs ih =>
    intro a m hm hle ha
    simp only [List.foldl_cons]
    rcases List.mem_cons.mp hm with rfl | hm2
    · rw [max_eq_right ha]
      exact foldl_max_of_le xs m (fun y hy => hle y (List.mem_cons_of_mem _ hy))
    · exact ih (max a x) m hm2 (fun y hy => hle y (List.mem_cons_of_mem _ hy))
        (max_le ha (hle x (List.mem_cons_self x xs)))

/-- C9: the heat-demand transform returns 0 when the scaled valve position
is at most 30, and otherwise floor((100v - t1) t1 / (t2 - t1) + t0 + 1/2)
over 100 with (t0, t1, t2) = (0, 30, 70) when the scaled value is at most 70
and (30, 70, 100) otherwise; and a zone's heat demand is the transform of
the maximum of its devices' (non-negative) demands, None when no device
reports one. -/
theorem heat_demand_transform :
    (∀ v : ℚ,
      (100 * v ≤ 30 → _transform v = 0) ∧
      (¬ 100 * v ≤ 30 → 100 * v ≤ 70 →
        _transform v =
          ((Int.floor ((100 * v - 30) * 30 / (70 - 30) + 0 + 1 / 2) : ℤ) : ℚ) / 100) ∧
      (¬ 100 * v ≤ 70 →
        _transform v =
          ((Int.floor ((100 * v - 70) * 70 / (100 - 70) + 30 + 1 / 2) : ℤ) : ℚ) / 100)) ∧
    zone_heat_demand [] = none ∧
    (∀ (ds : List ℚ) (m : ℚ), ds ≠ [] → (∀ x ∈ ds, 0 ≤ x) → m ∈ ds →
      (∀ x ∈ ds, x ≤ m) → zone_heat_demand ds = some (_transform m)) := by
  refine ⟨?_, rfl, ?_⟩
  · intro v
    refine ⟨?_, ?_, ?_⟩
    · intro h
      simp only [_transform]
      rw [if_pos (by rw [mul_comm]; exact h)]
    · intro h1 h2
      simp only [_transform]
      rw [if_neg (by rw [mul_comm]; exact h1)]
      rw [if_pos (show v * 100 ≤ 70 by rw [mul_comm]; exact h2)]
      norm_num [mul_comm v 100]
    · intro h2
      have h1 : ¬ 100 * v ≤ 30 := fun hc => h2 (le_trans hc (by norm_num))
      simp only [_transform]
      rw [if_neg (by rw [mul_comm]; exact h1)]
      rw [if_neg (show ¬ v * 100 ≤ 70 by rw [mul_comm]; exact h2)]
      norm_num [mul_comm v 100]
  · intro ds m hne h0 hm hle
    rw [zone_heat_demand]
    rw [if_neg (by simpa using hne)]
    rw [foldl_max_eq_max ds 0 m hm hle (h0 m hm)]

/-- C9 (witness): the theorem at two concrete demands, one half and one
quarter, whose maximum one half transforms to fifteen hundredths. -/
theorem heat_demand_transform_witness :
    zone_heat_demand [(1 : ℚ) / 2, 1 / 4] = some (3 / 20) := by
  have h := heat_demand_transform.2.2 [(1 : ℚ) / 2, 1 / 4] (1 / 2)
    (by simp)
    (by intro x hx
        rcases List.mem_cons.mp hx with rfl | hx2
        · norm_num
        · rcases List.mem_cons.mp hx2 with rfl | hx3
          · norm_num
          · exact absurd hx3 (List.not_mem_nil x))
    (List.mem_cons_self _ _)
    (by intro x hx
        rcases List.mem_cons.mp hx with rfl | hx2
        · norm_num
        · rcases List.mem_cons.mp hx2 with rfl | hx3
          · norm_num
          · exact absurd hx3 (List.not_mem_nil x))
  rw [h]
  norm_num [_transform]

end RamsesRF
